import Mathlib

/-!
Verification of the HTTP backend in `main.py`: request validation
(rarity enumeration), document persistence, identifier normalization on
read, the list limit, and the `/test` diagnostic route.

The web framework's body binding and the document store module are external
to the source file; the store adapter (`create_document`, `get_documents`,
the connection object) is modelled from the spec's contract in section 4.1.
-/

/-- The universe of field values occurring in this backend's records:
JSON-ish values of the shapes the two schemas use, plus the store-native
identifier (`ObjectId`). -/
inductive Value where
  | null
  | str (s : String)
  | int (n : Int)
  | strList (xs : List String)
  | strDict (kvs : List (String × String))
  | intDict (kvs : List (String × Int))
  | oid (n : Nat)
deriving DecidableEq, Repr

/-- A record (Python dict) as an ordered association list, mirroring dict
insertion order. -/
abbrev Record := List (String × Value)

/-- The keys of a record, in order. -/
def Record.keys (d : Record) : List String := d.map Prod.fst

/-- Hexadecimal digit character. -/
def hexChar (n : Nat) : Char :=
  if n < 10 then Char.ofNat (48 + n) else Char.ofNat (87 + n)

/-- Modelled from the spec: the store-assigned identifier rendered as text —
the spec's example shows a 24-character identifier (MongoDB ObjectId hex
string). The store module `database` is not under src/. -/
def objectIdText (n : Nat) : String :=
  String.mk ((List.range 24).reverse.map (fun i => hexChar (n / 16 ^ i % 16)))

/-- Python `str()` applied to a field value; in the source it is applied only
to the popped `_id` (an ObjectId). -/
def valueStr : Value → String
  | Value.null => "None"
  | Value.str s => s
  | Value.int n => toString n
  | Value.strList xs => "[" ++ String.intercalate ", " xs ++ "]"
  | Value.strDict _ => "<dict>"
  | Value.intDict _ => "<dict>"
  | Value.oid n => objectIdText n

/-- `fastapi.HTTPException(status_code, detail)`. -/
structure HTTPException where
  status_code : Nat
  detail : String
deriving DecidableEq, Repr

/-- `RARITIES = {"Common", "Rare", "Epic", "Legendary", "Champion"}` from
`main.py`; a Python set, modelled as the list of its members. -/
def RARITIES : List String := ["Common", "Rare", "Epic", "Legendary", "Champion"]

/-- The `CharacterCreate` pydantic model of `main.py`. -/
structure CharacterCreate where
  name : String
  rarity : String
  nation_code : Option String
  role : Option String
  bio : Option String
  image_url : Option String
  palette : Option (List (String × String))
  stats : Option (List (String × Int))
  tags : List String
deriving DecidableEq, Repr

/-- The `ItemCreate` pydantic model of `main.py`. -/
structure ItemCreate where
  name : String
  type : String
  rarity : String
  effect : Option String
  image_url : Option String
  tags : List String
deriving DecidableEq, Repr

/-- Field binding for an optional pydantic field: absent or null becomes
`Value.null` in `model_dump`. -/
def optVal (f : α → Value) : Option α → Value
  | none => Value.null
  | some a => f a

/-- `payload.model_dump()` for `CharacterCreate`: the fields in declaration
order. -/
def CharacterCreate.model_dump (p : CharacterCreate) : Record :=
  [("name", Value.str p.name),
   ("rarity", Value.str p.rarity),
   ("nation_code", optVal Value.str p.nation_code),
   ("role", optVal Value.str p.role),
   ("bio", optVal Value.str p.bio),
   ("image_url", optVal Value.str p.image_url),
   ("palette", optVal Value.strDict p.palette),
   ("stats", optVal Value.intDict p.stats),
   ("tags", Value.strList p.tags)]

/-- `payload.model_dump()` for `ItemCreate`. -/
def ItemCreate.model_dump (p : ItemCreate) : Record :=
  [("name", Value.str p.name),
   ("type", Value.str p.type),
   ("rarity", Value.str p.rarity),
   ("effect", optVal Value.str p.effect),
   ("image_url", optVal Value.str p.image_url),
   ("tags", Value.strList p.tags)]

/-- `CharacterCreate.validate_rarity` from `main.py`: raises
`HTTPException(400, "Invalid rarity")` when the rarity is outside the fixed
set. -/
def CharacterCreate.validate_rarity (p : CharacterCreate) : Except HTTPException Unit :=
  if p.rarity ∉ RARITIES then Except.error ⟨400, "Invalid rarity"⟩ else Except.ok ()

/-- `ItemCreate.validate_rarity` from `main.py`. -/
def ItemCreate.validate_rarity (p : ItemCreate) : Except HTTPException Unit :=
  if p.rarity ∉ RARITIES then Except.error ⟨400, "Invalid rarity"⟩ else Except.ok ()

/-- Modelled from the spec: the document store's state. The `database`
module is not under src/; per section 4.1 the store holds records per
collection and assigns each new record a unique identifier. `nextId` is the
counter from which the next store-assigned identifier is drawn. -/
structure Store where
  docs : List (String × Record)
  nextId : Nat
deriving DecidableEq, Repr

/-- Modelled from the spec: `create_document(collection_name, fields) -> id`
inserts `fields` as one new record into the named collection (with the
store-native `_id` field) and returns the store-assigned identifier as
text. -/
def Store.create_document (s : Store) (collection : String) (fields : Record) :
    String × Store :=
  (objectIdText s.nextId,
   { docs := s.docs ++ [(collection, ("_id", Value.oid s.nextId) :: fields)],
     nextId := s.nextId + 1 })

/-- Modelled from the spec: `get_documents(collection_name, limit)` returns
up to `limit` records of the named collection in storage order, each
including the store-native `_id` field. -/
def Store.get_documents (s : Store) (collection : String) (limit : Int) : List Record :=
  (((s.docs.filter (fun cd => cd.1 == collection)).map Prod.snd).take limit.toNat)

/-- One step of the read-normalization loop of `list_characters` /
`list_items`: `if "_id" in d: d["id"] = str(d.pop("_id"))`. Setting a dict
key overwrites in place when the key exists and appends otherwise. -/
def setKey (d : Record) (k : String) (v : Value) : Record :=
  if d.any (fun kv => kv.1 == k) then
    d.map (fun kv => if kv.1 == k then (k, v) else kv)
  else d ++ [(k, v)]

/-- The body of the loop in `list_characters` / `list_items` applied to one
document. -/
def normalizeDoc (d : Record) : Record :=
  match List.lookup "_id" d with
  | none => d
  | some v => setKey (d.filter (fun kv => kv.1 != "_id")) "id" (Value.str (valueStr v))

/-- The `{"items": docs}` response of the list routes. -/
structure ListResponse where
  items : List Record
deriving DecidableEq, Repr

/-- The default of the `limit` query parameter in both list routes. -/
def DEFAULT_LIMIT : Int := 100

/-- `GET /api/characters`. -/
def list_characters (limit : Int) (s : Store) : ListResponse :=
  ⟨(s.get_documents "character" limit).map normalizeDoc⟩

/-- `POST /api/characters`: validate rarity, persist the dumped payload,
return `{"id": _id}`. The store is threaded explicitly; a raised
`HTTPException` leaves it untouched. -/
def create_character (payload : CharacterCreate) (s : Store) :
    Except HTTPException Record × Store :=
  match payload.validate_rarity with
  | Except.error e => (Except.error e, s)
  | Except.ok _ =>
      let r := s.create_document "character" payload.model_dump
      (Except.ok [("id", Value.str r.1)], r.2)

/-- `GET /api/items`. -/
def list_items (limit : Int) (s : Store) : ListResponse :=
  ⟨(s.get_documents "item" limit).map normalizeDoc⟩

/-- `POST /api/items`. -/
def create_item (payload : ItemCreate) (s : Store) :
    Except HTTPException Record × Store :=
  match payload.validate_rarity with
  | Except.error e => (Except.error e, s)
  | Except.ok _ =>
      let r := s.create_document "item" payload.model_dump
      (Except.ok [("id", Value.str r.1)], r.2)

/-- Modelled from the spec: the store's connection object `database.db`
(module not under src/). `name` is `db.name` when that attribute exists;
`list_collection_names` is the outcome of the connectivity query — the
collection names, or the text of the exception it raised. -/
structure DbConn where
  name : Option String
  list_collection_names : Except String (List String)
deriving Repr

/-- Modelled from the spec: the outcome of `from database import db` inside
`test_database` — an `ImportError`, some other exception, or the module with
`db` either `None` (uninitialized) or a connection. -/
inductive ImportOutcome where
  | importError
  | otherError (msg : String)
  | imported (db : Option DbConn)
deriving Repr

/-- Modelled from the spec: the process environment `test_database` probes —
the import outcome and whether `DATABASE_URL` / `DATABASE_NAME` are set. -/
structure TestEnv where
  importDatabase : ImportOutcome
  database_url_set : Bool
  database_name_set : Bool
deriving Repr

/-- The response dict built by `test_database`; `database_url` and
`database_name` start as `None` (hence `Option`) and are overwritten with
status strings before returning. -/
structure TestResponse where
  backend : String
  database : String
  database_url : Option String
  database_name : Option String
  connection_status : String
  collections : List String
deriving DecidableEq, Repr

/-- `GET /test` from `main.py`: every failure mode is caught and rendered as
a status string in the body; exception texts are truncated to 50
characters, the collection list to its first 10 names. -/
def test_database (env : TestEnv) : TestResponse :=
  let r0 : TestResponse :=
    { backend := "✅ Running"
      database := "❌ Not Available"
      database_url := none
      database_name := none
      connection_status := "Not Connected"
      collections := [] }
  let r1 : TestResponse :=
    match env.importDatabase with
    | ImportOutcome.importError =>
        { r0 with database := "❌ Database module not found (run enable-database first)" }
    | ImportOutcome.otherError e =>
        { r0 with database := "❌ Error: " ++ e.take 50 }
    | ImportOutcome.imported none =>
        { r0 with database := "⚠️  Available but not initialized" }
    | ImportOutcome.imported (some db) =>
        let r : TestResponse :=
          { r0 with database := "✅ Available"
                    database_url := some "✅ Configured"
                    database_name := some (db.name.getD "✅ Connected")
                    connection_status := "Connected" }
        match db.list_collection_names with
        | Except.ok collections =>
            { r with collections := collections.take 10
                     database := "✅ Connected & Working" }
        | Except.error e =>
            { r with database := "⚠️  Connected but Error: " ++ e.take 50 }
  { r1 with
      database_url := some (if env.database_url_set then "✅ Set" else "❌ Not Set")
      database_name := some (if env.database_name_set then "✅ Set" else "❌ Not Set") }

/-- The `/test` route as the framework sees it: the handler only builds and
returns a dict, so the route never raises an `HTTPException`. -/
def testRoute (env : TestEnv) : Except HTTPException TestResponse :=
  Except.ok (test_database env)

/-- The framework's body binding for `CharacterCreate`: each optional field
binds `none` when absent, and an absent `tags` binds the declared default
`[]` (`tags: List[str] = []` in `main.py`). -/
def CharacterCreate.fromPayload (nm r : String) (nc ro bi iu : Option String)
    (pal : Option (List (String × String))) (st : Option (List (String × Int)))
    (tg : Option (List String)) : CharacterCreate :=
  ⟨nm, r, nc, ro, bi, iu, pal, st, tg.getD []⟩

/-- The framework's body binding for `ItemCreate`; an absent `tags` binds the
declared default `[]`. -/
def ItemCreate.fromPayload (nm ty r : String) (eff iu : Option String)
    (tg : Option (List String)) : ItemCreate :=
  ⟨nm, ty, r, eff, iu, tg.getD []⟩

/-- A store is well formed when every record in it is a dict (no repeated
keys) carrying the store-native `_id` field — the contract of
`get_documents` in the spec. -/
def Store.WF (s : Store) : Prop :=
  ∀ cd ∈ s.docs, "_id" ∈ Record.keys cd.2 ∧ (Record.keys cd.2).Nodup

theorem mem_keys_cons (kv : String × Value) (d : Record) (k : String) :
    k ∈ Record.keys (kv :: d) ↔ k = kv.1 ∨ k ∈ Record.keys d := by
  simp [Record.keys]

theorem mem_keys_iff_any (d : Record) (k : String) :
    k ∈ Record.keys d ↔ d.any (fun kv => kv.1 == k) = true := by
  induction d with
  | nil => simp [Record.keys]
  | cons kv rest ih =>
      rw [mem_keys_cons, List.any_cons, Bool.or_eq_true, beq_iff_eq, ← ih]
      exact or_congr_left eq_comm

theorem lookup_eq_none_of_not_mem_keys (k : String) :
    ∀ d : Record, k ∉ Record.keys d → List.lookup k d = none := by
  intro d
  induction d with
  | nil => intro _; rfl
  | cons kv rest ih =>
      intro h
      rw [mem_keys_cons] at h
      push_neg at h
      have hb : (k == kv.1) = false := beq_eq_false_iff_ne.mpr h.1
      simp [List.lookup, hb, ih h.2]

theorem exists_lookup_of_mem_keys (k : String) :
    ∀ d : Record, k ∈ Record.keys d → ∃ v, List.lookup k d = some v := by
  intro d
  induction d with
  | nil => intro h; simp [Record.keys] at h
  | cons kv rest ih =>
      intro h
      by_cases hk : k = kv.1
      · exact ⟨kv.2, by simp [List.lookup, hk]⟩
      · rcases ih (((mem_keys_cons kv rest k).mp h).resolve_left hk) with ⟨v, hv⟩
        have hb : (k == kv.1) = false := beq_eq_false_iff_ne.mpr hk
        exact ⟨v, by simp [List.lookup, hb, hv]⟩

theorem keys_setKey (d : Record) (k : String) (v : Value) :
    Record.keys (setKey d k v) =
      if k ∈ Record.keys d then Record.keys d else Record.keys d ++ [k] := by
  by_cases h : k ∈ Record.keys d
  · rw [if_pos h]
    have ha : d.any (fun kv => kv.1 == k) = true := (mem_keys_iff_any d k).mp h
    rw [setKey, if_pos ha]
    simp only [Record.keys, List.map_map]
    refine List.map_congr_left ?_
    intro kv _
    cases hb : (kv.1 == k) with
    | false => simp [beq_eq_false_iff_ne.mp hb]
    | true => simp [beq_iff_eq.mp hb]
  · rw [if_neg h]
    have ha : d.any (fun kv => kv.1 == k) = false :=
      Bool.eq_false_iff.mpr (fun hc => h ((mem_keys_iff_any d k).mpr hc))
    rw [setKey, if_neg (by simp [ha])]
    simp [Record.keys]

theorem lookup_map_set (k : String) (v : Value) :
    ∀ d : Record, d.any (fun kv => kv.1 == k) = true →
      List.lookup k (d.map (fun kv => if kv.1 == k then (k, v) else kv)) = some v := by
  intro d
  induction d with
  | nil => intro ha; simp at ha
  | cons kv rest ih =>
      intro ha
      by_cases hk : kv.1 = k
      · rw [List.map_cons, if_pos (beq_iff_eq.mpr hk)]
        simp [List.lookup]
      · rw [List.map_cons, if_neg (by simp [hk])]
        have hkb : (k == kv.1) = false := beq_eq_false_iff_ne.mpr fun h2 => hk h2.symm
        have hrest : rest.any (fun x => x.1 == k) = true := by
          simpa [List.any_cons, hk] using ha
        simpa [List.lookup, hkb] using ih hrest

theorem lookup_append_set (k : String) (v : Value) :
    ∀ d : Record, d.any (fun kv => kv.1 == k) = false →
      List.lookup k (d ++ [(k, v)]) = some v := by
  intro d
  induction d with
  | nil => intro _; simp [List.lookup]
  | cons kv rest ih =>
      intro ha
      simp only [List.any_cons, Bool.or_eq_false_iff] at ha
      have hkb : (k == kv.1) = false :=
        beq_eq_false_iff_ne.mpr fun e => (beq_eq_false_iff_ne.mp ha.1) e.symm
      simp [List.lookup, hkb, ih ha.2]

theorem lookup_setKey_self (d : Record) (k : String) (v : Value) :
    List.lookup k (setKey d k v) = some v := by
  rw [setKey]
  by_cases ha : d.any (fun kv => kv.1 == k) = true
  · rw [if_pos ha]; exact lookup_map_set k v d ha
  · have ha2 : d.any (fun kv => kv.1 == k) = false := Bool.eq_false_iff.mpr ha
    rw [if_neg (by simp [ha2])]
    exact lookup_append_set k v d ha2

theorem keys_filter_key (k : String) :
    ∀ d : Record, Record.keys (d.filter (fun kv => kv.1 != k)) =
      (Record.keys d).filter (fun x => x != k) := by
  intro d
  induction d with
  | nil => rfl
  | cons kv rest ih =>
      by_cases hk : kv.1 = k
      · have hb : (kv.1 != k) = false := by simp [hk]
        simp only [Record.keys, List.map_cons, List.filter_cons, hb]
        simpa [Record.keys] using ih
      · have hb : (kv.1 != k) = true := by simp [hk]
        simp only [Record.keys, List.map_cons, List.filter_cons, hb]
        simp only [if_true, List.map_cons]
        exact congrArg (kv.1 :: ·) ih

theorem normalizeDoc_spec (d : Record) (hid : "_id" ∈ Record.keys d)
    (hnd : (Record.keys d).Nodup) :
    "_id" ∉ Record.keys (normalizeDoc d) ∧
    (Record.keys (normalizeDoc d)).count "id" = 1 ∧
    ∃ v, List.lookup "_id" d = some v ∧
      List.lookup "id" (normalizeDoc d) = some (Value.str (valueStr v)) := by
  rcases exists_lookup_of_mem_keys "_id" d hid with ⟨v, hv⟩
  unfold normalizeDoc
  rw [hv]
  have hkeys : Record.keys (d.filter (fun kv => kv.1 != "_id")) =
      (Record.keys d).filter (fun x => x != "_id") := keys_filter_key "_id" d
  have hidni : "_id" ∉ Record.keys (d.filter (fun kv => kv.1 != "_id")) := by
    rw [hkeys]
    intro h
    have h2 := (List.mem_filter.mp h).2
    simp at h2
  have hcount : (Record.keys (d.filter (fun kv => kv.1 != "_id"))).count "id" =
      (Record.keys d).count "id" := by
    rw [hkeys]
    exact List.count_filter (by decide)
  have hndf : (Record.keys (d.filter (fun kv => kv.1 != "_id"))).Nodup := by
    rw [hkeys]; exact hnd.filter _
  refine ⟨?_, ?_, v, rfl,
    lookup_setKey_self (d.filter (fun kv => kv.1 != "_id")) "id" (Value.str (valueStr v))⟩
  · rw [keys_setKey]
    by_cases hidm : "id" ∈ Record.keys (d.filter (fun kv => kv.1 != "_id"))
    · rw [if_pos hidm]; exact hidni
    · rw [if_neg hidm]
      intro h
      rcases List.mem_append.mp h with h | h
      · exact hidni h
      · simp at h
  · rw [keys_setKey]
    by_cases hidm : "id" ∈ Record.keys (d.filter (fun kv => kv.1 != "_id"))
    · rw [if_pos hidm]
      exact List.count_eq_one_of_mem hndf hidm
    · rw [if_neg hidm, List.count_append]
      have h0 : (Record.keys (d.filter (fun kv => kv.1 != "_id"))).count "id" = 0 :=
        List.count_eq_zero.mpr hidm
      simp [h0]

theorem get_documents_create (s : Store) (c : String) (r : Record) (limit : Int)
    (hlim : (s.docs.filter (fun cd => cd.1 == c)).length + 1 ≤ limit.toNat) :
    Store.get_documents (Store.create_document s c r).2 c limit =
      ((s.docs.filter (fun cd => cd.1 == c)).map Prod.snd)
        ++ [("_id", Value.oid s.nextId) :: r] := by
  unfold Store.get_documents Store.create_document
  rw [List.filter_append]
  have hone : List.filter (fun cd => cd.1 == c) [(c, ("_id", Value.oid s.nextId) :: r)]
      = [(c, ("_id", Value.oid s.nextId) :: r)] := by simp
  rw [hone, List.map_append]
  exact List.take_of_length_le (by simpa using hlim)

theorem create_character_result (p : CharacterCreate) (s : Store) (hr : p.rarity ∈ RARITIES) :
    create_character p s =
      (Except.ok [("id", Value.str (objectIdText s.nextId))],
       { docs := s.docs ++ [("character", ("_id", Value.oid s.nextId) :: p.model_dump)],
         nextId := s.nextId + 1 }) := by
  have hval : p.validate_rarity = Except.ok () := by
    unfold CharacterCreate.validate_rarity
    rw [if_neg (not_not_intro hr)]
  unfold create_character
  rw [hval]
  rfl

theorem create_item_result (q : ItemCreate) (s : Store) (hr : q.rarity ∈ RARITIES) :
    create_item q s =
      (Except.ok [("id", Value.str (objectIdText s.nextId))],
       { docs := s.docs ++ [("item", ("_id", Value.oid s.nextId) :: q.model_dump)],
         nextId := s.nextId + 1 }) := by
  have hval : q.validate_rarity = Except.ok () := by
    unfold ItemCreate.validate_rarity
    rw [if_neg (not_not_intro hr)]
  unfold create_item
  rw [hval]
  rfl

theorem normalizeDoc_character_dump (p : CharacterCreate) (n : Nat) :
    normalizeDoc (("_id", Value.oid n) :: p.model_dump) =
      p.model_dump ++ [("id", Value.str (objectIdText n))] := rfl

theorem normalizeDoc_item_dump (q : ItemCreate) (n : Nat) :
    normalizeDoc (("_id", Value.oid n) :: q.model_dump) =
      q.model_dump ++ [("id", Value.str (objectIdText n))] := rfl

theorem objectIdText_length (n : Nat) : (objectIdText n).length = 24 := by
  simp [objectIdText, String.length]

theorem objectIdText_ne_empty (n : Nat) : objectIdText n ≠ "" := by
  intro h
  have h2 := congrArg String.length h
  rw [objectIdText_length] at h2
  simp at h2

theorem list_after_create_doc (s : Store) (c : String) (r : Record) (limit : Int)
    (hlim : (s.docs.filter (fun cd => cd.1 == c)).length + 1 ≤ limit.toNat) :
    ((Store.create_document s c r).2.get_documents c limit).map normalizeDoc
      = (((s.docs.filter (fun cd => cd.1 == c)).map Prod.snd).map normalizeDoc)
        ++ [normalizeDoc (("_id", Value.oid s.nextId) :: r)] := by
  rw [get_documents_create s c r limit hlim, List.map_append]
  rfl

/-- C1: a Character or Item payload whose `rarity` lies outside
{Common, Rare, Epic, Legendary, Champion} is rejected by `create_character`
/ `create_item` with HTTP 400 and detail "Invalid rarity" (the enumeration
error, distinct from the framework's shape-validation failure), and the
store is left exactly as it was: `create_document` is never invoked. -/
theorem invalid_rarity_rejected (p : CharacterCreate) (q : ItemCreate) (s : Store)
    (hp : p.rarity ∉ RARITIES) (hq : q.rarity ∉ RARITIES) :
    create_character p s = (Except.error ⟨400, "Invalid rarity"⟩, s) ∧
    create_item q s = (Except.error ⟨400, "Invalid rarity"⟩, s) := by
  constructor
  · have hval : p.validate_rarity = Except.error ⟨400, "Invalid rarity"⟩ := by
      unfold CharacterCreate.validate_rarity
      rw [if_pos hp]
    unfold create_character
    rw [hval]
  · have hval : q.validate_rarity = Except.error ⟨400, "Invalid rarity"⟩ := by
      unfold ItemCreate.validate_rarity
      rw [if_pos hq]
    unfold create_item
    rw [hval]

/-- Witness for C1: rarity "Mythic" is rejected and the store stays empty. -/
theorem invalid_rarity_rejected_witness :
    create_character ⟨"Ayo", "Mythic", none, none, none, none, none, none, []⟩ ⟨[], 0⟩
        = (Except.error ⟨400, "Invalid rarity"⟩, ⟨[], 0⟩) ∧
    create_item ⟨"Sword", "Weapon", "Mythic", none, none, []⟩ ⟨[], 0⟩
        = (Except.error ⟨400, "Invalid rarity"⟩, ⟨[], 0⟩) :=
  invalid_rarity_rejected ⟨"Ayo", "Mythic", none, none, none, none, none, none, []⟩
    ⟨"Sword", "Weapon", "Mythic", none, none, []⟩ ⟨[], 0⟩ (by decide) (by decide)

/-- C5: `limit` bounds the number of records both list endpoints return,
`limit = 0` yields an empty `items` sequence (not an error), and the
declared default is 100. -/
theorem limit_bounds_results (limit : Int) (s : Store) :
    (list_characters limit s).items.length ≤ limit.toNat ∧
    (list_items limit s).items.length ≤ limit.toNat ∧
    (list_characters 0 s).items = [] ∧
    (list_items 0 s).items = [] ∧
    DEFAULT_LIMIT = 100 := by
  refine ⟨?_, ?_, ?_, ?_, rfl⟩
  · simp [list_characters, Store.get_documents]
  · simp [list_items, Store.get_documents]
  · simp [list_characters, Store.get_documents]
  · simp [list_items, Store.get_documents]

/-- C10: the read-normalization in the list endpoints is conditional on the
native field: a stored record without `_id` passes through `normalizeDoc`
unchanged — no `id` field is added and no field is modified — and is
returned as-is by `list_characters` / `list_items`. -/
theorem doc_without_native_id_unchanged (s : Store) (limit : Int) (d : Record)
    (hno : "_id" ∉ Record.keys d) :
    normalizeDoc d = d ∧
    (d ∈ Store.get_documents s "character" limit → d ∈ (list_characters limit s).items) ∧
    (d ∈ Store.get_documents s "item" limit → d ∈ (list_items limit s).items) := by
  have h0 : normalizeDoc d = d := by
    unfold normalizeDoc
    rw [lookup_eq_none_of_not_mem_keys "_id" d hno]
  refine ⟨h0, fun hm => ?_, fun hm => ?_⟩
  · have h1 := List.mem_map_of_mem normalizeDoc hm
    rwa [h0] at h1
  · have h1 := List.mem_map_of_mem normalizeDoc hm
    rwa [h0] at h1

/-- Witness for C10: a record with no `_id` is listed unchanged. -/
theorem doc_without_native_id_unchanged_witness :
    normalizeDoc [("name", Value.str "Ayo")] = [("name", Value.str "Ayo")] ∧
    ([("name", Value.str "Ayo")] ∈
        Store.get_documents ⟨[("character", [("name", Value.str "Ayo")])], 5⟩ "character" 100 →
      [("name", Value.str "Ayo")] ∈
        (list_characters 100 ⟨[("character", [("name", Value.str "Ayo")])], 5⟩).items) ∧
    ([("name", Value.str "Ayo")] ∈
        Store.get_documents ⟨[("character", [("name", Value.str "Ayo")])], 5⟩ "item" 100 →
      [("name", Value.str "Ayo")] ∈
        (list_items 100 ⟨[("character", [("name", Value.str "Ayo")])], 5⟩).items) :=
  doc_without_native_id_unchanged ⟨[("character", [("name", Value.str "Ayo")])], 5⟩ 100
    [("name", Value.str "Ayo")] (by decide)

/-- C3: under the store contract (every stored record is a dict carrying
`_id`), every record a list endpoint returns has no `_id` field and exactly
one identifier field named `id`; moreover the record is the normalization
of a stored document of that listing, and its `id` value is the text
rendering (Python `str()`) of the very `_id` value removed from that
document — the same identifier, rendered as text. -/
theorem list_normalizes_identifier (s : Store) (limit : Int) (hs : Store.WF s) (d : Record)
    (hd : d ∈ (list_characters limit s).items ∨ d ∈ (list_items limit s).items) :
    "_id" ∉ Record.keys d ∧ (Record.keys d).count "id" = 1 ∧
    ∃ d0 v,
      (d0 ∈ Store.get_documents s "character" limit ∨
        d0 ∈ Store.get_documents s "item" limit) ∧
      d = normalizeDoc d0 ∧ List.lookup "_id" d0 = some v ∧
      List.lookup "id" d = some (Value.str (valueStr v)) := by
  have main : ∀ c : String, d ∈ (Store.get_documents s c limit).map normalizeDoc →
      ∃ d0, d0 ∈ Store.get_documents s c limit ∧ d = normalizeDoc d0 ∧
        "_id" ∉ Record.keys d ∧ (Record.keys d).count "id" = 1 ∧
        ∃ v, List.lookup "_id" d0 = some v ∧
          List.lookup "id" d = some (Value.str (valueStr v)) := by
    intro c hc
    rcases List.mem_map.mp hc with ⟨d0, hd0, rfl⟩
    have hd1 : d0 ∈ (s.docs.filter (fun cd => cd.1 == c)).map Prod.snd :=
      List.mem_of_mem_take (by simpa [Store.get_documents] using hd0)
    rcases List.mem_map.mp hd1 with ⟨cd, hcd, rfl⟩
    have hmem : cd ∈ s.docs := (List.mem_filter.mp hcd).1
    rcases normalizeDoc_spec cd.2 (hs cd hmem).1 (hs cd hmem).2 with ⟨h1, h2, v, hv, hl⟩
    exact ⟨cd.2, hd0, rfl, h1, h2, v, hv, hl⟩
  rcases hd with h | h
  · rcases main "character" h with ⟨d0, hm, hdn, h1, h2, v, hv, hl⟩
    exact ⟨h1, h2, d0, v, Or.inl hm, hdn, hv, hl⟩
  · rcases main "item" h with ⟨d0, hm, hdn, h1, h2, v, hv, hl⟩
    exact ⟨h1, h2, d0, v, Or.inr hm, hdn, hv, hl⟩

/-- Witness for C3 on a one-record store: the listed record's `id` is the
text rendering of the stored `_id` value. -/
theorem list_normalizes_identifier_witness :
    "_id" ∉ Record.keys (normalizeDoc [("_id", Value.oid 7), ("name", Value.str "Ayo")]) ∧
    (Record.keys (normalizeDoc [("_id", Value.oid 7), ("name", Value.str "Ayo")])).count "id" = 1 ∧
    ∃ d0 v,
      (d0 ∈ Store.get_documents
          ⟨[("character", [("_id", Value.oid 7), ("name", Value.str "Ayo")])], 8⟩ "character" 100 ∨
        d0 ∈ Store.get_documents
          ⟨[("character", [("_id", Value.oid 7), ("name", Value.str "Ayo")])], 8⟩ "item" 100) ∧
      normalizeDoc [("_id", Value.oid 7), ("name", Value.str "Ayo")] = normalizeDoc d0 ∧
      List.lookup "_id" d0 = some v ∧
      List.lookup "id" (normalizeDoc [("_id", Value.oid 7), ("name", Value.str "Ayo")])
        = some (Value.str (valueStr v)) :=
  list_normalizes_identifier
    ⟨[("character", [("_id", Value.oid 7), ("name", Value.str "Ayo")])], 8⟩ 100
    (by unfold Store.WF; decide)
    (normalizeDoc [("_id", Value.oid 7), ("name", Value.str "Ayo")])
    (Or.inl (by decide))

set_option maxRecDepth 4000 in
/-- C4: the `/test` route is total — for every store state it returns a
normal (non-error) response — and each failure mode (module missing,
connection uninitialized, query failing, other exception) as well as the
healthy state is rendered as a distinct human-readable status string in the
body; unset environment variables likewise become status strings. -/
theorem test_route_never_errors (env : TestEnv) :
    (∃ r, testRoute env = Except.ok r) ∧
    (test_database ⟨ImportOutcome.importError, false, false⟩).database
      = "❌ Database module not found (run enable-database first)" ∧
    (test_database ⟨ImportOutcome.imported none, false, false⟩).database
      = "⚠️  Available but not initialized" ∧
    (test_database ⟨ImportOutcome.imported (some ⟨some "appdb", Except.error "boom"⟩),
        true, true⟩).database
      = "⚠️  Connected but Error: boom" ∧
    (test_database ⟨ImportOutcome.imported (some ⟨some "appdb",
        Except.ok ["character", "item"]⟩), true, true⟩).database
      = "✅ Connected & Working" ∧
    (test_database ⟨ImportOutcome.otherError "kaput", false, false⟩).database
      = "❌ Error: kaput" ∧
    (test_database ⟨ImportOutcome.importError, false, false⟩).database_url
      = some "❌ Not Set" ∧
    (test_database ⟨ImportOutcome.importError, false, false⟩).database_name
      = some "❌ Not Set" :=
  ⟨⟨test_database env, rfl⟩, rfl, rfl, rfl, rfl, rfl, rfl, rfl⟩

/-- C8: in the healthy state the `/test` response reports the first 10
collection names: its `collections` field is `cs.take 10`, of length
`min n 10`, and a prefix of the store's list. -/
theorem test_collections_first_ten (env : TestEnv) (db : DbConn) (cs : List String)
    (himp : env.importDatabase = ImportOutcome.imported (some db))
    (hcs : db.list_collection_names = Except.ok cs) :
    (test_database env).collections = cs.take 10 ∧
    (test_database env).collections.length = min cs.length 10 ∧
    (test_database env).collections <+: cs := by
  have hc : (test_database env).collections = cs.take 10 := by
    simp only [test_database, himp, hcs]
  refine ⟨hc, ?_, ?_⟩
  · rw [hc, List.length_take]
    exact Nat.min_comm 10 cs.length
  · rw [hc]
    exact List.take_prefix 10 cs

/-- Witness for C8: twelve collections are truncated to the first ten. -/
theorem test_collections_first_ten_witness :
    (test_database ⟨ImportOutcome.imported (some ⟨some "appdb", Except.ok
        ["c01", "c02", "c03", "c04", "c05", "c06", "c07", "c08", "c09", "c10", "c11", "c12"]⟩),
        true, true⟩).collections
      = (["c01", "c02", "c03", "c04", "c05", "c06", "c07", "c08", "c09", "c10", "c11", "c12"]
          : List String).take 10 ∧
    (test_database ⟨ImportOutcome.imported (some ⟨some "appdb", Except.ok
        ["c01", "c02", "c03", "c04", "c05", "c06", "c07", "c08", "c09", "c10", "c11", "c12"]⟩),
        true, true⟩).collections.length
      = min (["c01", "c02", "c03", "c04", "c05", "c06", "c07", "c08", "c09", "c10", "c11", "c12"]
          : List String).length 10 ∧
    (test_database ⟨ImportOutcome.imported (some ⟨some "appdb", Except.ok
        ["c01", "c02", "c03", "c04", "c05", "c06", "c07", "c08", "c09", "c10", "c11", "c12"]⟩),
        true, true⟩).collections
      <+: ["c01", "c02", "c03", "c04", "c05", "c06", "c07", "c08", "c09", "c10", "c11", "c12"] :=
  test_collections_first_ten
    ⟨ImportOutcome.imported (some ⟨some "appdb", Except.ok
        ["c01", "c02", "c03", "c04", "c05", "c06", "c07", "c08", "c09", "c10", "c11", "c12"]⟩),
        true, true⟩
    ⟨some "appdb", Except.ok
        ["c01", "c02", "c03", "c04", "c05", "c06", "c07", "c08", "c09", "c10", "c11", "c12"]⟩
    ["c01", "c02", "c03", "c04", "c05", "c06", "c07", "c08", "c09", "c10", "c11", "c12"]
    rfl rfl

/-- C2: for a valid payload (rarity in the enumeration) `create_character`
/ `create_item` persists the dumped payload through `create_document` and
answers `{"id": t}` with `t` the store-assigned identifier — non-empty
text of 24 characters — and a subsequent list call over the same
collection (with `limit` large enough to reach it) includes a record whose
`id` field carries that identifier. -/
theorem valid_create_persists_and_lists (p : CharacterCreate) (q : ItemCreate)
    (s : Store) (limit : Int)
    (hp : p.rarity ∈ RARITIES) (hq : q.rarity ∈ RARITIES)
    (hcl : (s.docs.filter (fun cd => cd.1 == "character")).length + 1 ≤ limit.toNat)
    (hil : (s.docs.filter (fun cd => cd.1 == "item")).length + 1 ≤ limit.toNat) :
    (∃ t s1, create_character p s = (Except.ok [("id", Value.str t)], s1) ∧
       t ≠ "" ∧ t.length = 24 ∧
       ∃ d ∈ (list_characters limit s1).items, List.lookup "id" d = some (Value.str t)) ∧
    (∃ t s1, create_item q s = (Except.ok [("id", Value.str t)], s1) ∧
       t ≠ "" ∧ t.length = 24 ∧
       ∃ d ∈ (list_items limit s1).items, List.lookup "id" d = some (Value.str t)) := by
  constructor
  · refine ⟨objectIdText s.nextId,
      ⟨s.docs ++ [("character", ("_id", Value.oid s.nextId) :: p.model_dump)], s.nextId + 1⟩,
      create_character_result p s hp, objectIdText_ne_empty _, objectIdText_length _, ?_⟩
    have hitems :
        (list_characters limit
          ⟨s.docs ++ [("character", ("_id", Value.oid s.nextId) :: p.model_dump)],
           s.nextId + 1⟩).items
        = (((s.docs.filter (fun cd => cd.1 == "character")).map Prod.snd).map normalizeDoc)
          ++ [normalizeDoc (("_id", Value.oid s.nextId) :: p.model_dump)] :=
      list_after_create_doc s "character" p.model_dump limit hcl
    refine ⟨normalizeDoc (("_id", Value.oid s.nextId) :: p.model_dump), ?_, rfl⟩
    rw [hitems]
    exact List.mem_append_right _ (List.mem_singleton_self _)
  · refine ⟨objectIdText s.nextId,
      ⟨s.docs ++ [("item", ("_id", Value.oid s.nextId) :: q.model_dump)], s.nextId + 1⟩,
      create_item_result q s hq, objectIdText_ne_empty _, objectIdText_length _, ?_⟩
    have hitems :
        (list_items limit
          ⟨s.docs ++ [("item", ("_id", Value.oid s.nextId) :: q.model_dump)],
           s.nextId + 1⟩).items
        = (((s.docs.filter (fun cd => cd.1 == "item")).map Prod.snd).map normalizeDoc)
          ++ [normalizeDoc (("_id", Value.oid s.nextId) :: q.model_dump)] :=
      list_after_create_doc s "item" q.model_dump limit hil
    refine ⟨normalizeDoc (("_id", Value.oid s.nextId) :: q.model_dump), ?_, rfl⟩
    rw [hitems]
    exact List.mem_append_right _ (List.mem_singleton_self _)

/-- Witness for C2: creating a valid Character and Item on the empty store
and listing with the default limit. -/
theorem valid_create_persists_and_lists_witness :
    (∃ t s1, create_character
        ⟨"Ayo", "Epic", some "CAN", none, none, none, none, none, []⟩ ⟨[], 0⟩
        = (Except.ok [("id", Value.str t)], s1) ∧
       t ≠ "" ∧ t.length = 24 ∧
       ∃ d ∈ (list_characters 100 s1).items, List.lookup "id" d = some (Value.str t)) ∧
    (∃ t s1, create_item ⟨"Sword", "Weapon", "Epic", none, none, []⟩ ⟨[], 0⟩
        = (Except.ok [("id", Value.str t)], s1) ∧
       t ≠ "" ∧ t.length = 24 ∧
       ∃ d ∈ (list_items 100 s1).items, List.lookup "id" d = some (Value.str t)) :=
  valid_create_persists_and_lists
    ⟨"Ayo", "Epic", some "CAN", none, none, none, none, none, []⟩
    ⟨"Sword", "Weapon", "Epic", none, none, []⟩ ⟨[], 0⟩ 100
    (by decide) (by decide) (by decide) (by decide)

/-- C6: a Character created with `tags = ["a", "b"]` is returned by the
subsequent list call as a record whose `tags` field is `["a", "b"]`, in the
same order, alongside its assigned `id`. -/
theorem tags_round_trip (p : CharacterCreate) (s : Store) (limit : Int)
    (hr : p.rarity ∈ RARITIES) (htags : p.tags = ["a", "b"])
    (hcl : (s.docs.filter (fun cd => cd.1 == "character")).length + 1 ≤ limit.toNat) :
    ∃ t s1, create_character p s = (Except.ok [("id", Value.str t)], s1) ∧
      ∃ d ∈ (list_characters limit s1).items,
        List.lookup "id" d = some (Value.str t) ∧
        List.lookup "tags" d = some (Value.strList ["a", "b"]) := by
  refine ⟨objectIdText s.nextId,
    ⟨s.docs ++ [("character", ("_id", Value.oid s.nextId) :: p.model_dump)], s.nextId + 1⟩,
    create_character_result p s hr, ?_⟩
  have hitems :
      (list_characters limit
        ⟨s.docs ++ [("character", ("_id", Value.oid s.nextId) :: p.model_dump)],
         s.nextId + 1⟩).items
      = (((s.docs.filter (fun cd => cd.1 == "character")).map Prod.snd).map normalizeDoc)
        ++ [normalizeDoc (("_id", Value.oid s.nextId) :: p.model_dump)] :=
    list_after_create_doc s "character" p.model_dump limit hcl
  refine ⟨normalizeDoc (("_id", Value.oid s.nextId) :: p.model_dump), ?_, rfl, ?_⟩
  · rw [hitems]
    exact List.mem_append_right _ (List.mem_singleton_self _)
  · have h : List.lookup "tags" (normalizeDoc (("_id", Value.oid s.nextId) :: p.model_dump))
        = some (Value.strList p.tags) := rfl
    rw [h, htags]

/-- Witness for C6 on the empty store. -/
theorem tags_round_trip_witness :
    ∃ t s1, create_character
        ⟨"Ayo", "Epic", none, none, none, none, none, none, ["a", "b"]⟩ ⟨[], 0⟩
        = (Except.ok [("id", Value.str t)], s1) ∧
      ∃ d ∈ (list_characters 100 s1).items,
        List.lookup "id" d = some (Value.str t) ∧
        List.lookup "tags" d = some (Value.strList ["a", "b"]) :=
  tags_round_trip ⟨"Ayo", "Epic", none, none, none, none, none, none, ["a", "b"]⟩
    ⟨[], 0⟩ 100 (by decide) rfl (by decide)

/-- C7: POSTs are not idempotent — each valid `create_character` /
`create_item` invocation performs exactly one `create_document` call, so two
byte-identical valid POSTs append exactly two records to the collection,
and the two persisted records are distinct (their `_id` fields differ). -/
theorem post_not_idempotent (p : CharacterCreate) (q : ItemCreate) (s : Store)
    (hp : p.rarity ∈ RARITIES) (hq : q.rarity ∈ RARITIES) :
    (∃ d1 d2 : Record,
       (create_character p (create_character p s).2).2.docs
         = s.docs ++ [("character", d1), ("character", d2)] ∧ d1 ≠ d2 ∧
       List.lookup "_id" d1 ≠ List.lookup "_id" d2) ∧
    (∃ d1 d2 : Record,
       (create_item q (create_item q s).2).2.docs
         = s.docs ++ [("item", d1), ("item", d2)] ∧ d1 ≠ d2 ∧
       List.lookup "_id" d1 ≠ List.lookup "_id" d2) := by
  constructor
  · refine ⟨("_id", Value.oid s.nextId) :: p.model_dump,
      ("_id", Value.oid (s.nextId + 1)) :: p.model_dump, ?_, ?_, ?_⟩
    · rw [create_character_result p s hp,
        create_character_result p
          ⟨s.docs ++ [("character", ("_id", Value.oid s.nextId) :: p.model_dump)],
           s.nextId + 1⟩ hp]
      simp [List.append_assoc]
    · intro h
      simp at h
    · intro h
      simp [List.lookup] at h
  · refine ⟨("_id", Value.oid s.nextId) :: q.model_dump,
      ("_id", Value.oid (s.nextId + 1)) :: q.model_dump, ?_, ?_, ?_⟩
    · rw [create_item_result q s hq,
        create_item_result q
          ⟨s.docs ++ [("item", ("_id", Value.oid s.nextId) :: q.model_dump)],
           s.nextId + 1⟩ hq]
      simp [List.append_assoc]
    · intro h
      simp at h
    · intro h
      simp [List.lookup] at h

/-- Witness for C7: two identical valid POSTs on the empty store leave two
distinct records. -/
theorem post_not_idempotent_witness :
    (∃ d1 d2 : Record,
       (create_character ⟨"Ayo", "Epic", none, none, none, none, none, none, []⟩
          (create_character ⟨"Ayo", "Epic", none, none, none, none, none, none, []⟩
            ⟨[], 0⟩).2).2.docs
         = (⟨[], 0⟩ : Store).docs ++ [("character", d1), ("character", d2)] ∧ d1 ≠ d2 ∧
       List.lookup "_id" d1 ≠ List.lookup "_id" d2) ∧
    (∃ d1 d2 : Record,
       (create_item ⟨"Sword", "Weapon", "Epic", none, none, []⟩
          (create_item ⟨"Sword", "Weapon", "Epic", none, none, []⟩ ⟨[], 0⟩).2).2.docs
         = (⟨[], 0⟩ : Store).docs ++ [("item", d1), ("item", d2)] ∧ d1 ≠ d2 ∧
       List.lookup "_id" d1 ≠ List.lookup "_id" d2) :=
  post_not_idempotent ⟨"Ayo", "Epic", none, none, none, none, none, none, []⟩
    ⟨"Sword", "Weapon", "Epic", none, none, []⟩ ⟨[], 0⟩ (by decide) (by decide)

/-- C9: a Character or Item payload that omits `tags` binds the declared
default `[]`; the persisted record's `tags` field is the empty sequence,
and the record later returned by the list endpoint carries `tags = []`
(the spec's Sword example). -/
theorem omitted_tags_default_empty (nm ty r : String) (eff iu : Option String)
    (nm2 r2 : String) (nc ro bi iu2 : Option String)
    (pal : Option (List (String × String))) (st : Option (List (String × Int)))
    (s : Store) (limit : Int) (hr : r ∈ RARITIES)
    (hil : (s.docs.filter (fun cd => cd.1 == "item")).length + 1 ≤ limit.toNat) :
    (ItemCreate.fromPayload nm ty r eff iu none).tags = [] ∧
    (CharacterCreate.fromPayload nm2 r2 nc ro bi iu2 pal st none).tags = [] ∧
    List.lookup "tags" (ItemCreate.fromPayload nm ty r eff iu none).model_dump
      = some (Value.strList []) ∧
    List.lookup "tags" (CharacterCreate.fromPayload nm2 r2 nc ro bi iu2 pal st none).model_dump
      = some (Value.strList []) ∧
    ∃ t s1, create_item (ItemCreate.fromPayload nm ty r eff iu none) s
        = (Except.ok [("id", Value.str t)], s1) ∧
      ∃ d ∈ (list_items limit s1).items,
        List.lookup "id" d = some (Value.str t) ∧
        List.lookup "tags" d = some (Value.strList []) := by
  refine ⟨rfl, rfl, rfl, rfl, objectIdText s.nextId,
    ⟨s.docs ++ [("item",
        ("_id", Value.oid s.nextId) :: (ItemCreate.fromPayload nm ty r eff iu none).model_dump)],
     s.nextId + 1⟩,
    create_item_result (ItemCreate.fromPayload nm ty r eff iu none) s hr, ?_⟩
  have hitems :
      (list_items limit
        ⟨s.docs ++ [("item",
            ("_id", Value.oid s.nextId)
              :: (ItemCreate.fromPayload nm ty r eff iu none).model_dump)],
         s.nextId + 1⟩).items
      = (((s.docs.filter (fun cd => cd.1 == "item")).map Prod.snd).map normalizeDoc)
        ++ [normalizeDoc (("_id", Value.oid s.nextId)
              :: (ItemCreate.fromPayload nm ty r eff iu none).model_dump)] :=
    list_after_create_doc s "item" (ItemCreate.fromPayload nm ty r eff iu none).model_dump
      limit hil
  refine ⟨normalizeDoc (("_id", Value.oid s.nextId)
      :: (ItemCreate.fromPayload nm ty r eff iu none).model_dump), ?_, rfl, rfl⟩
  rw [hitems]
  exact List.mem_append_right _ (List.mem_singleton_self _)

/-- Witness for C9: the spec's Sword example, POSTed to the empty store. -/
theorem omitted_tags_default_empty_witness :
    (ItemCreate.fromPayload "Sword" "Weapon" "Epic" none none none).tags = [] ∧
    (CharacterCreate.fromPayload "Ayo" "Epic" none none none none none none none).tags = [] ∧
    List.lookup "tags" (ItemCreate.fromPayload "Sword" "Weapon" "Epic" none none none).model_dump
      = some (Value.strList []) ∧
    List.lookup "tags"
        (CharacterCreate.fromPayload "Ayo" "Epic" none none none none none none none).model_dump
      = some (Value.strList []) ∧
    ∃ t s1, create_item (ItemCreate.fromPayload "Sword" "Weapon" "Epic" none none none) ⟨[], 0⟩
        = (Except.ok [("id", Value.str t)], s1) ∧
      ∃ d ∈ (list_items 100 s1).items,
        List.lookup "id" d = some (Value.str t) ∧
        List.lookup "tags" d = some (Value.strList []) :=
  omitted_tags_default_empty "Sword" "Weapon" "Epic" none none "Ayo" "Epic"
    none none none none none none ⟨[], 0⟩ 100 (by decide) (by decide)
